import Mathlib

/-!
# TokenFlipper: emote synchronization and animation protocol, formalized

A shallow embedding of the tokenflipper module (`scripts/emotes.js` and
`scripts/tokenflipper.js`).  JS numbers are modelled as rationals, the
`activeEmotes` JS `Map` as an association list with set/delete maintaining
key uniqueness, and the async playback function `renderEmoteLocally` as a
coroutine: an atomic entry section (everything before the first `await`)
followed by resumptions at each suspension point (`loadTexture`,
fade-in, hold, fade-out).  Each resumption takes an outcome describing how
the awaited host primitive finished (resolved, resolved to a falsy
texture, or rejected/threw).  Host side effects (notifications, scene
child add/remove, document updates, socket emits) are recorded as events.
-/

/-- JS `v || d` for an optional numeric field: `undefined` and `0` are
falsy, anything else is itself. -/
def jsOr (v : Option ℚ) (d : ℚ) : ℚ :=
  match v with
  | none => d
  | some x => if x = 0 then d else x

/-- An emote definition from the registry (`game.settings` "emotes" entry).
Numeric fields are optional: a missing field models a JS `undefined`. -/
structure EmoteDef where
  id : String
  name : String
  image : String
  offsetX : Option ℚ := none
  offsetY : Option ℚ := none
  scale : Option ℚ := none
  duration : Option ℚ := none
  fadeIn : Option ℚ := none
  fadeOut : Option ℚ := none
deriving Repr, DecidableEq

/-- A canvas token as read by `renderEmoteLocally` (id, position, width). -/
structure EToken where
  id : String
  x : ℚ
  y : ℚ
  w : ℚ
deriving Repr, DecidableEq

/-- A PIXI sprite as configured by `renderEmoteLocally` lines 88-99:
identified by an allocation counter `sid`, carrying the fields the code
sets. -/
structure Sprite where
  sid : Nat
  alpha : ℚ
  spriteScale : ℚ
  posX : ℚ
  posY : ℚ
deriving Repr, DecidableEq

/-- Client-side state visible to the emote module: the current scene id
(`canvas.scene?.id`), the tokens of the currently viewed scene
(`canvas.tokens`), the "emotes" setting (`none` models a missing setting,
mapped to `[]` by `|| []`), the module-global `activeEmotes` map, the
canvas child list, and a fresh-id counter for sprites. -/
structure EmoteState where
  currentScene : Option String
  tokens : List EToken
  emoteSetting : Option (List EmoteDef)
  activeEmotes : List (String × Nat)
  children : List Sprite
  nextSid : Nat
deriving Repr, DecidableEq

/-- JS `Map.set`: at most one entry per key. -/
def mapSet (k : String) (v : Nat) (m : List (String × Nat)) : List (String × Nat) :=
  (k, v) :: m.filter (fun kv => kv.1 ≠ k)

/-- JS `Map.delete`. -/
def mapDelete (k : String) (m : List (String × Nat)) : List (String × Nat) :=
  m.filter (fun kv => kv.1 ≠ k)

/-- The emote key built at line 74: a template string, not a pair. -/
def emoteKey (tokenId emoteId : String) : String :=
  tokenId ++ "-" ++ emoteId

/-- Observable host effects of the emote playback code. -/
inductive EEvent where
  | consoleWarn (msg : String)
  | consoleError (msg : String)
  | addChild (sp : Sprite)
  | animateAlpha (sid : Nat) (target : ℚ) (durationMs : ℚ)
  | holdWait (ms : ℚ)
  | removeChild (sid : Nat)
  | destroySprite (sid : Nat)
deriving Repr, DecidableEq

/-- The suspension points of `renderEmoteLocally`: awaiting `loadTexture`
(line 81), the fade-in animation (line 106), the hold (line 109), or the
fade-out animation (line 112).  Each phase carries the emote key, the
resolved definition, and what the body still needs. -/
inductive Phase where
  | loading (key : String) (emote : EmoteDef) (tok : EToken)
  | fadingIn (key : String) (emote : EmoteDef) (sid : Nat)
  | holding (key : String) (emote : EmoteDef) (sid : Nat)
  | fadingOut (key : String) (emote : EmoteDef) (sid : Nat)
deriving Repr, DecidableEq

/-- The key a suspended playback is registered (or will register) under. -/
def phaseKey : Phase → String
  | .loading k _ _ => k
  | .fadingIn k _ _ => k
  | .holding k _ _ => k
  | .fadingOut k _ _ => k

/-- Whether a suspended playback is still awaiting its texture load. -/
def Phase.isLoading : Phase → Bool
  | .loading _ _ _ => true
  | _ => false

/-- How an awaited host primitive finished: resolved normally, resolved to
a falsy texture (the `if (!texture)` branch, only meaningful for
`loadTexture`), or rejected/threw (caught by the `try`/`catch`). -/
inductive Outcome where
  | ok
  | nullTexture
  | threw
deriving Repr, DecidableEq

/-- The sprite built at lines 88-99: bottom-center anchored, scaled by
`emote.scale || 1.0`, alpha 0, positioned at the token top-center plus the
configured offsets (`emote.offsetX || 0`, `emote.offsetY || 0`). -/
def mkSprite (sid : Nat) (emote : EmoteDef) (tok : EToken) : Sprite :=
  { sid := sid
    alpha := 0
    spriteScale := jsOr emote.scale 1
    posX := tok.x + tok.w / 2 + jsOr emote.offsetX 0
    posY := tok.y + jsOr emote.offsetY 0 }

/-- The atomic entry section of `renderEmoteLocally` (lines 62-77):
scene-match guard, token lookup, emote lookup, and the duplicate check
against `activeEmotes`.  Returns the (unchanged) state, the phase the call
suspends in (`none` when it returned before its first `await`), and the
events it emitted (none: all four early returns are silent). -/
def renderEmoteStart (s : EmoteState) (sceneId tokenId emoteId : String) :
    EmoteState × Option Phase × List EEvent :=
  if s.currentScene ≠ some sceneId then (s, none, [])
  else
    match s.tokens.find? (fun t => t.id == tokenId) with
    | none => (s, none, [])
    | some tok =>
      match (s.emoteSetting.getD []).find? (fun e => e.id == emoteId) with
      | none => (s, none, [])
      | some emote =>
        let key := emoteKey tokenId emoteId
        if (List.lookup key s.activeEmotes).isSome then (s, none, [])
        else (s, some (.loading key emote tok), [])

/-- Set the alpha of the sprite identified by `sid` (the host animation
primitive has brought it to its target value by the time the await
resolves). -/
def updateAlpha (sid : Nat) (a : ℚ) (children : List Sprite) : List Sprite :=
  children.map (fun sp => if sp.sid = sid then { sp with alpha := a } else sp)

/-- One resumption of `renderEmoteLocally` at a suspension point, given the
outcome of the awaited primitive.  A `threw` outcome anywhere inside the
`try` lands in the `catch` (lines 119-122), which logs and deletes the
`activeEmotes` entry — and does nothing else.  Resuming after a successful
`loadTexture` runs lines 88-106 atomically: build the sprite, add it to
the canvas, register the `activeEmotes` entry, start the fade-in.
Completing the fade-out runs the cleanup at lines 114-117. -/
def renderEmoteResume (s : EmoteState) (p : Phase) (o : Outcome) :
    EmoteState × Option Phase × List EEvent :=
  match p, o with
  | .loading _ emote _, .nullTexture =>
      (s, none,
        [.consoleWarn ("tokenflipper | Failed to load emote texture: " ++ emote.image)])
  | .loading key emote tok, .ok =>
      let sp := mkSprite s.nextSid emote tok
      ({ s with children := s.children ++ [sp],
                activeEmotes := mapSet key s.nextSid s.activeEmotes,
                nextSid := s.nextSid + 1 },
        some (.fadingIn key emote sp.sid),
        [.addChild sp, .animateAlpha sp.sid 1 (jsOr emote.fadeIn 200)])
  | .fadingIn key emote sid, .ok =>
      ({ s with children := updateAlpha sid 1 s.children },
        some (.holding key emote sid),
        [.holdWait (jsOr emote.duration 1500)])
  | .holding key emote sid, .ok =>
      (s, some (.fadingOut key emote sid),
        [.animateAlpha sid 0 (jsOr emote.fadeOut 200)])
  | .fadingOut key _ sid, .ok =>
      ({ s with children := (updateAlpha sid 0 s.children).filter (fun sp => sp.sid ≠ sid),
                activeEmotes := mapDelete key s.activeEmotes },
        none,
        [.removeChild sid, .destroySprite sid])
  | .loading key _ _, .threw | .fadingIn key _ _, _ | .holding key _ _, _
  | .fadingOut key _ _, _ =>
      ({ s with activeEmotes := mapDelete key s.activeEmotes }, none,
        [.consoleError "tokenflipper | Error playing emote:"])

/-- Run a suspended playback to completion, consuming one outcome per
suspension point.  Returns `none` when the outcome list is exhausted
before the call resolves. -/
def runPhases (s : EmoteState) (p : Phase) : List Outcome → Option (EmoteState × List EEvent)
  | [] => none
  | o :: os =>
    match renderEmoteResume s p o with
    | (s1, none, evs) => some (s1, evs)
    | (s1, some p1, evs) =>
      match runPhases s1 p1 os with
      | none => none
      | some (s2, evs2) => some (s2, evs ++ evs2)

/-- A full sequential (uninterleaved) run of `renderEmoteLocally`:
the atomic entry section followed by every resumption. -/
def renderEmoteLocally (s : EmoteState) (sceneId tokenId emoteId : String)
    (os : List Outcome) : Option (EmoteState × List EEvent) :=
  match renderEmoteStart s sceneId tokenId emoteId with
  | (s1, none, evs) => some (s1, evs)
  | (s1, some p, evs) =>
    match runPhases s1 p os with
    | none => none
    | some (s2, evs2) => some (s2, evs ++ evs2)

/-- A client world under cooperative scheduling: the module state, the set
of playback coroutines currently suspended at an `await`, a coroutine id
counter, and the cumulative event trace. -/
structure World where
  st : EmoteState
  coros : List (Nat × Phase)
  nextCid : Nat
  trace : List EEvent
deriving Repr, DecidableEq

/-- Scheduler actions: a playback trigger (a local call or a received
socket broadcast — both enter `renderEmoteLocally` the same way), or the
completion of the host primitive some suspended coroutine is awaiting. -/
inductive SchedAction where
  | trigger (sceneId tokenId emoteId : String)
  | step (cid : Nat) (o : Outcome)
deriving Repr, DecidableEq

/-- Interleaved execution: a trigger runs the atomic entry section and
suspends (or returns); a step resumes one suspended coroutine. -/
def runAction (w : World) : SchedAction → World
  | .trigger sceneId tokenId emoteId =>
    match renderEmoteStart w.st sceneId tokenId emoteId with
    | (s1, none, evs) => { w with st := s1, trace := w.trace ++ evs }
    | (s1, some p, evs) =>
      { st := s1, coros := w.coros ++ [(w.nextCid, p)], nextCid := w.nextCid + 1,
        trace := w.trace ++ evs }
  | .step cid o =>
    match List.lookup cid w.coros with
    | none => w
    | some p =>
      match renderEmoteResume w.st p o with
      | (s1, none, evs) =>
        { w with st := s1, coros := w.coros.filter (fun c => c.1 ≠ cid),
                 trace := w.trace ++ evs }
      | (s1, some p1, evs) =>
        { w with st := s1,
                 coros := w.coros.map (fun c => if c.1 = cid then (cid, p1) else c),
                 trace := w.trace ++ evs }

/-- Run a sequence of scheduler actions. -/
def runActions (w : World) (as : List SchedAction) : World :=
  as.foldl runAction w

/-!
## The flip, bounce and playEmote handlers (`tokenflipper.js`, `emotes.js`)
-/

/-- A token as read by the flip/bounce/playEmote handlers: identity, name,
ownership, the `animationContexts?.size > 0` flag, the two texture scale
factors and the vertical document position. -/
structure FToken where
  id : String
  name : String
  isOwner : Bool
  animationActive : Bool
  scaleX : ℚ
  scaleY : ℚ
  y : ℚ
deriving Repr, DecidableEq

/-- Host effects of the flip handler. -/
inductive FEvent where
  | warnNotify (msg : String)
  | docUpdate (tokenId : String) (property : String) (value : ℚ)
      (animate : Bool) (durationMs : ℚ)
deriving Repr, DecidableEq

/-- Line 161: any direction other than "vertical" flips horizontally. -/
def flipProperty (direction : String) : String :=
  if direction == "vertical" then "texture.scaleY" else "texture.scaleX"

/-- `foundry.utils.getProperty(token.document, property)` for the two
properties the flip handler uses. -/
def getScale (property : String) (t : FToken) : ℚ :=
  if property == "texture.scaleY" then t.scaleY else t.scaleX

/-- The document update `updates[property] = currentValue * -1`. -/
def setScale (property : String) (v : ℚ) (t : FToken) : FToken :=
  if property == "texture.scaleY" then { t with scaleY := v } else { t with scaleX := v }

/-- The loop body of `flipSelectedTokens` (lines 164-181) for one token:
warn and skip non-owned tokens, silently skip animating tokens, otherwise
negate the scale factor, updating with animation iff the configured
duration is positive. -/
def flipOne (property : String) (duration : ℚ) (t : FToken) : FToken × List FEvent :=
  if !t.isOwner then
    (t, [.warnNotify ("You don\x27t have permission to flip " ++ t.name ++ ".")])
  else if t.animationActive then (t, [])
  else
    let newValue := getScale property t * -1
    (setScale property newValue t,
      [.docUpdate t.id property newValue (decide (duration > 0)) duration])

/-- `flipSelectedTokens(direction)` (lines 153-182) over the controlled
token list, with the configured flip duration. -/
def flipSelectedTokens (direction : String) (flipDuration : ℚ)
    (controlled : List FToken) : List FToken × List FEvent :=
  if controlled.isEmpty then (controlled, [.warnNotify "No tokens selected to flip."])
  else
    ((controlled.map (fun t => (flipOne (flipProperty direction) flipDuration t).1)),
      controlled.flatMap (fun t => (flipOne (flipProperty direction) flipDuration t).2))

/-- Host effects of the bounce handler. -/
inductive BEvent where
  | warnNotify (msg : String)
  | moveUpdate (tokenId : String) (targetY : ℚ) (easing : String) (durationMs : ℚ)
deriving Repr, DecidableEq

/-- One iteration of the loop in `doBounceAnimation` (lines 223-235):
an awaited move up to `originalY - height` easing out, then an awaited
move back down to `originalY` easing in, each over half the duration. -/
def bounceCycle (tokenId : String) (originalY height duration : ℚ) : List BEvent :=
  [.moveUpdate tokenId (originalY - height) "easeOutQuad" (duration / 2),
   .moveUpdate tokenId originalY "easeInQuad" (duration / 2)]

/-- The bounce loop, updating the token's `y` through each half-step. -/
def bounceLoop (t : FToken) (originalY height duration : ℚ) :
    Nat → FToken × List BEvent
  | 0 => (t, [])
  | n + 1 =>
    let tUp := { t with y := originalY - height }
    let tDown := { tUp with y := originalY }
    let rest := bounceLoop tDown originalY height duration n
    (rest.1, bounceCycle t.id originalY height duration ++ rest.2)

/-- `doBounceAnimation(token, height, duration, count)` (lines 220-236):
captures `originalY` once, then runs `count` sequential up/down cycles. -/
def doBounceAnimation (t : FToken) (height duration : ℚ) (count : Nat) :
    FToken × List BEvent :=
  bounceLoop t t.y height duration count

/-- The loop body of `bounceSelectedTokens` (lines 199-210) for one token:
warn and skip non-owned, silently skip animating, otherwise bounce. -/
def bounceOne (height duration : ℚ) (count : Nat) (t : FToken) : FToken × List BEvent :=
  if !t.isOwner then
    (t, [.warnNotify ("You don\x27t have permission to bounce " ++ t.name ++ ".")])
  else if t.animationActive then (t, [])
  else doBounceAnimation t height duration count

/-- `bounceSelectedTokens()` (lines 187-211) over the controlled tokens. -/
def bounceSelectedTokens (height duration : ℚ) (count : Nat)
    (controlled : List FToken) : List FToken × List BEvent :=
  if controlled.isEmpty then (controlled, [.warnNotify "No tokens selected to bounce."])
  else
    (controlled.map (fun t => (bounceOne height duration count t).1),
      controlled.flatMap (fun t => (bounceOne height duration count t).2))

/-- Host effects of `playEmote`. -/
inductive PEvent where
  | warnNotify (msg : String)
  | errorNotify (msg : String)
  | renderLocal (sceneId tokenId emoteId : String)
  | socketEmit (sceneId tokenId emoteId : String)
deriving Repr, DecidableEq

/-- The loop body of `playEmote` (lines 37-53) for one token: warn and
skip non-owned tokens; for owned tokens, invoke the local render (not
awaited) and broadcast the playback message. -/
def playEmoteOne (sceneId emoteId : String) (t : FToken) : List PEvent :=
  if !t.isOwner then
    [.warnNotify ("You don\x27t have permission to emote with " ++ t.name ++ ".")]
  else
    [.renderLocal sceneId t.id emoteId, .socketEmit sceneId t.id emoteId]

/-- `playEmote(emoteId)` (lines 21-54): warn on an empty selection, error
on an unknown emote id, otherwise process every controlled token. -/
def playEmote (sceneId : String) (emoteSetting : Option (List EmoteDef))
    (controlled : List FToken) (emoteId : String) : List PEvent :=
  if controlled.isEmpty then [.warnNotify "No tokens selected for emote."]
  else
    match (emoteSetting.getD []).find? (fun e => e.id == emoteId) with
    | none => [.errorNotify ("Emote \"" ++ emoteId ++ "\" not found.")]
    | some _ => controlled.flatMap (playEmoteOne sceneId emoteId)

/-!
## Concrete scenario used by counterexamples and witnesses
-/

/-- A token in the viewed scene. -/
def egToken : EToken := { id := "T", x := 0, y := 0, w := 2 }

/-- The default "heart" emote from `getDefaultEmotes`, image path shortened. -/
def egEmote : EmoteDef :=
  { id := "heart", name := "Heart", image := "heart.svg",
    offsetX := some 0, offsetY := some (-20), scale := some (3 / 4),
    duration := some 1500, fadeIn := some 200, fadeOut := some 200 }

/-- A quiescent client viewing scene "S" that contains `egToken`, with the
"heart" emote configured and no playback active. -/
def egState : EmoteState :=
  { currentScene := some "S", tokens := [egToken], emoteSetting := some [egEmote],
    activeEmotes := [], children := [], nextSid := 0 }

/-- The corresponding idle scheduler world. -/
def egWorld : World := { st := egState, coros := [], nextCid := 0, trace := [] }

/-!
## Helper lemmas about the map operations and sprite lists
-/

/-- Looking up a key in a list from which it was filtered out finds nothing. -/
theorem lookup_filter_ne (k : String) (m : List (String × Nat)) :
    List.lookup k (m.filter (fun kv => kv.1 ≠ k)) = none := by
  rw [List.lookup_eq_none_iff]
  intro p hp
  rw [List.mem_filter] at hp
  have hne : p.1 ≠ k := by simpa using hp.2
  simp only [bne_iff_ne]
  exact fun he => hne he.symm

/-- Deleting a key removes it. -/
theorem lookup_mapDelete_self (k : String) (m : List (String × Nat)) :
    List.lookup k (mapDelete k m) = none :=
  lookup_filter_ne k m

/-- Deleting an absent key is a no-op. -/
theorem mapDelete_of_lookup_none (k : String) (m : List (String × Nat))
    (h : List.lookup k m = none) : mapDelete k m = m := by
  rw [List.lookup_eq_none_iff] at h
  refine List.filter_eq_self.mpr (fun p hp => ?_)
  have hne := h p hp
  simp only [bne_iff_ne] at hne
  simp only [decide_eq_true_eq]
  exact fun he => hne he.symm

/-- Deleting a key right after setting it cancels the set. -/
theorem mapDelete_mapSet (k : String) (v : Nat) (m : List (String × Nat)) :
    mapDelete k (mapSet k v m) = mapDelete k m := by
  simp [mapDelete, mapSet, List.filter_cons, List.filter_filter]

/-- An alpha update targeting a sprite id that is not in the list does nothing. -/
theorem updateAlpha_not_mem (sid : Nat) (a : ℚ) :
    ∀ l : List Sprite, (∀ sp ∈ l, sp.sid ≠ sid) → updateAlpha sid a l = l
  | [], _ => rfl
  | x :: l, h => by
    have hx : x.sid ≠ sid := h x (List.mem_cons_self x l)
    have hl : ∀ sp ∈ l, sp.sid ≠ sid := fun sp hsp => h sp (List.mem_cons_of_mem x hsp)
    simp only [updateAlpha, List.map_cons, if_neg hx]
    have := updateAlpha_not_mem sid a l hl
    simp only [updateAlpha] at this
    rw [this]

/-- Filtering out a sprite id that is not in the list does nothing. -/
theorem filter_sid_not_mem (sid : Nat) (l : List Sprite)
    (h : ∀ sp ∈ l, sp.sid ≠ sid) :
    l.filter (fun sp => sp.sid ≠ sid) = l :=
  List.filter_eq_self.mpr (fun sp hsp => by simpa using h sp hsp)

/-- The canvas child list is restored after a playback adds its sprite,
animates it, and removes it again, provided its sprite id was fresh. -/
theorem children_roundtrip (n : Nat) (l : List Sprite) (sp : Sprite)
    (hsid : sp.sid = n) (h : ∀ q ∈ l, q.sid ≠ n) :
    (updateAlpha n 0 (updateAlpha n 1 (l ++ [sp]))).filter (fun q => q.sid ≠ n) = l := by
  have h1 : updateAlpha n 1 (l ++ [sp]) = l ++ [{ sp with alpha := 1 }] := by
    simp only [updateAlpha, List.map_append]
    rw [show (List.map (fun q => if q.sid = n then { q with alpha := (1 : ℚ) } else q) l) = l from
      updateAlpha_not_mem n 1 l h]
    simp [hsid]
  have h2 : updateAlpha n 0 (l ++ [{ sp with alpha := (1 : ℚ) }]) =
      l ++ [{ sp with alpha := 0 }] := by
    simp only [updateAlpha, List.map_append]
    rw [show (List.map (fun q => if q.sid = n then { q with alpha := (0 : ℚ) } else q) l) = l from
      updateAlpha_not_mem n 0 l h]
    simp [hsid]
  rw [h1, h2, List.filter_append, filter_sid_not_mem n l h]
  simp [hsid]

/-!
## Claims
-/

/-- Claim C1, counterexample.  Triggering playback for the same
(tokenId, emoteId) pair a second time while the first playback is still in
its texture-loading stage is NOT a no-op: the duplicate check at line 77
runs before the `activeEmotes` entry is registered at line 103, which only
happens after `await loadTexture` resolves.  Two rapid triggers for
("T", "heart") followed by both texture loads resolving leave two live
sprites on the canvas. -/
theorem renderEmote_duplicate_counterexample :
    (runActions egWorld [.trigger "S" "T" "heart", .trigger "S" "T" "heart",
        .step 0 .ok, .step 1 .ok]).st.children.length = 2 := by decide

/-- Claim C1 (amended): once a playback has registered its ActivePlayback
entry (after its texture load resolves) and until the entry is removed,
triggering playback again for the same (tokenId, emoteId) pair is a
complete no-op: the client state, coroutines, and event trace are all
unchanged. -/
theorem trigger_noop_of_active (w : World) (sceneId tokenId emoteId : String) (sid : Nat)
    (h : List.lookup (emoteKey tokenId emoteId) w.st.activeEmotes = some sid) :
    runAction w (.trigger sceneId tokenId emoteId) = w := by
  have hstart : renderEmoteStart w.st sceneId tokenId emoteId = (w.st, none, []) := by
    by_cases hsc : w.st.currentScene ≠ some sceneId
    · simp [renderEmoteStart, hsc]
    · cases htok : w.st.tokens.find? (fun t => t.id == tokenId) with
      | none => simp [renderEmoteStart, hsc, htok]
      | some tok =>
        cases hem : (w.st.emoteSetting.getD []).find? (fun e => e.id == emoteId) with
        | none => simp [renderEmoteStart, hsc, htok, hem]
        | some emote => simp [renderEmoteStart, hsc, htok, hem, h]
  simp [runAction, hstart]

/-- Witness for the amended claim C1 at a concrete world in which the
("T", "heart") playback is registered. -/
theorem trigger_noop_of_active_witness :
    runAction { st := { egState with activeEmotes := [("T-heart", 0)] }, coros := [],
                nextCid := 1, trace := [] } (.trigger "S" "T" "heart") =
      { st := { egState with activeEmotes := [("T-heart", 0)] }, coros := [],
        nextCid := 1, trace := [] } :=
  trigger_noop_of_active _ "S" "T" "heart" 0 (by decide)

/-- Claim C2, counterexample.  When the fade-in stage throws, the `catch`
(lines 119-122) removes the `activeEmotes` entry but does NOT remove the
sprite from the canvas child list nor destroy it: after the playback for
("T", "heart") resolves through a throw, no coroutine remains, the entry
is gone, yet the sprite is still a canvas child — contradicting the claim
that the visual resource is released and removed on any throw. -/
theorem renderEmote_throw_leak_counterexample :
    (runActions egWorld [.trigger "S" "T" "heart", .step 0 .ok, .step 0 .threw]).coros = []
      ∧ (runActions egWorld
          [.trigger "S" "T" "heart", .step 0 .ok, .step 0 .threw]).st.children.length = 1
      ∧ List.lookup "T-heart" (runActions egWorld
          [.trigger "S" "T" "heart", .step 0 .ok, .step 0 .threw]).st.activeEmotes = none := by
  decide

/-- Claim C2 (amended): if any awaited stage of a registered playback
throws, the catch block removes the ActivePlayback entry for that key (so
future playback for the key is never permanently suppressed) and the
coroutine terminates — but the sprite is NOT removed from the scene child
list (the canvas children are unchanged; the sprite leaks). -/
theorem resume_threw_cleanup (s : EmoteState) (p : Phase) :
    (renderEmoteResume s p .threw).1.children = s.children
      ∧ (renderEmoteResume s p .threw).1.activeEmotes = mapDelete (phaseKey p) s.activeEmotes
      ∧ (renderEmoteResume s p .threw).2.1 = none
      ∧ List.lookup (phaseKey p) (renderEmoteResume s p .threw).1.activeEmotes = none := by
  cases p <;> exact ⟨rfl, rfl, rfl, lookup_mapDelete_self _ _⟩

/-- Claim C5: a playback request whose sceneId differs from the scene the
client is viewing returns at line 64 with zero side effects: the state,
the coroutines and the trace are unchanged and no event (in particular no
error) is emitted. -/
theorem trigger_scene_mismatch (w : World) (sceneId tokenId emoteId : String)
    (h : w.st.currentScene ≠ some sceneId) :
    runAction w (.trigger sceneId tokenId emoteId) = w := by
  have hstart : renderEmoteStart w.st sceneId tokenId emoteId = (w.st, none, []) := by
    simp [renderEmoteStart, h]
  simp [runAction, hstart]

/-- Witness for claim C5: a client viewing scene "S2" receiving a
broadcast for scene "S". -/
theorem trigger_scene_mismatch_witness :
    runAction { st := { egState with currentScene := some "S2" }, coros := [], nextCid := 0,
                trace := [] } (.trigger "S" "T" "heart") =
      { st := { egState with currentScene := some "S2" }, coros := [], nextCid := 0,
        trace := [] } :=
  trigger_scene_mismatch _ "S" "T" "heart" (by decide)

/-- Claim C10: a playback request whose tokenId is not a token of the
currently viewed scene (line 67), or made while the emote list setting is
missing entirely (lines 69-71, via the fallback to an empty list), is a
silent no-op: state, coroutines and trace are unchanged and no warning or
error is raised. -/
theorem trigger_unknown_target_noop (w : World) (sceneId tokenId emoteId : String)
    (h : w.st.tokens.find? (fun t => t.id == tokenId) = none ∨ w.st.emoteSetting = none) :
    runAction w (.trigger sceneId tokenId emoteId) = w := by
  have hstart : renderEmoteStart w.st sceneId tokenId emoteId = (w.st, none, []) := by
    by_cases hsc : w.st.currentScene ≠ some sceneId
    · simp [renderEmoteStart, hsc]
    · rcases h with h | h
      · simp [renderEmoteStart, hsc, h]
      · cases htok : w.st.tokens.find? (fun t => t.id == tokenId) with
        | none => simp [renderEmoteStart, hsc, htok]
        | some tok => simp [renderEmoteStart, hsc, htok, h]
  simp [runAction, hstart]

/-- Witness for claim C10: a request for an unknown token id "T2". -/
theorem trigger_unknown_target_noop_witness :
    runAction egWorld (.trigger "S" "T2" "heart") = egWorld :=
  trigger_unknown_target_noop _ "S" "T2" "heart" (Or.inl (by decide))

/-- Destructure one resumption inside a completed `runPhases` run: either
the resumption terminated the call, or it suspended again and the rest of
the run completed from there. -/
theorem runPhases_cons (s : EmoteState) (p : Phase) (o : Outcome) (os : List Outcome)
    (s' : EmoteState) (evs : List EEvent)
    (h : runPhases s p (o :: os) = some (s', evs)) :
    ((renderEmoteResume s p o).2.1 = none ∧ s' = (renderEmoteResume s p o).1) ∨
    (∃ p1 evs2, (renderEmoteResume s p o).2.1 = some p1 ∧
      runPhases (renderEmoteResume s p o).1 p1 os = some (s', evs2)) := by
  rcases hres : renderEmoteResume s p o with ⟨s1, op, e1⟩
  simp only [runPhases, hres] at h
  cases op with
  | none =>
    dsimp only at h
    left
    simp only [Option.some.injEq, Prod.mk.injEq] at h
    exact ⟨rfl, h.1.symm⟩
  | some p1 =>
    dsimp only at h
    right
    cases hrec : runPhases s1 p1 os with
    | none => rw [hrec] at h; simp at h
    | some r =>
      rcases r with ⟨s2, e2⟩
      rw [hrec] at h
      simp only [Option.some.injEq, Prod.mk.injEq] at h
      exact ⟨p1, e2, rfl, by rw [hrec, h.1]⟩

/-- Across a completed run from any suspension point, the playback's key
is absent from `activeEmotes` at the end — provided that, while still in
the loading phase, the key was not yet registered (which is how a playback
reaches that phase: its duplicate check passed). -/
theorem runPhases_no_leak :
    ∀ (os : List Outcome) (p : Phase) (s s' : EmoteState) (evs : List EEvent),
      (p.isLoading = false ∨ List.lookup (phaseKey p) s.activeEmotes = none) →
      runPhases s p os = some (s', evs) →
      List.lookup (phaseKey p) s'.activeEmotes = none := by
  intro os
  induction os with
  | nil => intro p s s' evs _ hrun; simp [runPhases] at hrun
  | cons o os ih =>
    intro p s s' evs h hrun
    rcases runPhases_cons s p o os s' evs hrun with ⟨hterm, hs'⟩ | ⟨p1, evs2, hsome, hrec⟩
    · cases p with
      | loading k e tok =>
        cases o with
        | ok => simp [renderEmoteResume] at hterm
        | nullTexture =>
          subst hs'
          rcases h with h | h
          · simp [Phase.isLoading] at h
          · exact h
        | threw => subst hs'; exact lookup_mapDelete_self _ _
      | fadingIn k e sid =>
        cases o with
        | ok => simp [renderEmoteResume] at hterm
        | nullTexture => subst hs'; exact lookup_mapDelete_self _ _
        | threw => subst hs'; exact lookup_mapDelete_self _ _
      | holding k e sid =>
        cases o with
        | ok => simp [renderEmoteResume] at hterm
        | nullTexture => subst hs'; exact lookup_mapDelete_self _ _
        | threw => subst hs'; exact lookup_mapDelete_self _ _
      | fadingOut k e sid =>
        cases o with
        | ok => subst hs'; exact lookup_mapDelete_self _ _
        | nullTexture => subst hs'; exact lookup_mapDelete_self _ _
        | threw => subst hs'; exact lookup_mapDelete_self _ _
    · cases p with
      | loading k e tok =>
        cases o with
        | ok =>
          simp only [renderEmoteResume, Option.some.injEq] at hsome hrec
          subst hsome
          simpa [phaseKey] using
            ih (Phase.fadingIn k e (mkSprite s.nextSid e tok).sid) _ _ _ (Or.inl rfl) hrec
        | nullTexture => simp [renderEmoteResume] at hsome
        | threw => simp [renderEmoteResume] at hsome
      | fadingIn k e sid =>
        cases o with
        | ok =>
          simp only [renderEmoteResume, Option.some.injEq] at hsome hrec
          subst hsome
          simpa [phaseKey] using ih (Phase.holding k e sid) _ _ _ (Or.inl rfl) hrec
        | nullTexture => simp [renderEmoteResume] at hsome
        | threw => simp [renderEmoteResume] at hsome
      | holding k e sid =>
        cases o with
        | ok =>
          simp only [renderEmoteResume, Option.some.injEq] at hsome hrec
          subst hsome
          simpa [phaseKey] using ih (Phase.fadingOut k e sid) _ _ _ (Or.inl rfl) hrec
        | nullTexture => simp [renderEmoteResume] at hsome
        | threw => simp [renderEmoteResume] at hsome
      | fadingOut k e sid =>
        cases o with
        | ok => simp [renderEmoteResume] at hsome
        | nullTexture => simp [renderEmoteResume] at hsome
        | threw => simp [renderEmoteResume] at hsome

/-- Claim C3: after an uninterleaved playback call resolves — whether the
sequence completed normally, the texture failed to load, or any stage
threw — the `activeEmotes` entry for its (tokenId, emoteId) key is absent,
provided no other playback held the key when the call was made. -/
theorem renderEmote_no_leak (s : EmoteState) (sceneId tokenId emoteId : String)
    (os : List Outcome) (s' : EmoteState) (evs : List EEvent)
    (hkey : List.lookup (emoteKey tokenId emoteId) s.activeEmotes = none)
    (hrun : renderEmoteLocally s sceneId tokenId emoteId os = some (s', evs)) :
    List.lookup (emoteKey tokenId emoteId) s'.activeEmotes = none := by
  by_cases hsc : s.currentScene ≠ some sceneId
  · rw [show renderEmoteLocally s sceneId tokenId emoteId os = some (s, []) from by
      simp [renderEmoteLocally, renderEmoteStart, hsc]] at hrun
    simp only [Option.some.injEq, Prod.mk.injEq] at hrun
    rw [← hrun.1]
    exact hkey
  · cases htok : s.tokens.find? (fun t => t.id == tokenId) with
    | none =>
      rw [show renderEmoteLocally s sceneId tokenId emoteId os = some (s, []) from by
        simp [renderEmoteLocally, renderEmoteStart, hsc, htok]] at hrun
      simp only [Option.some.injEq, Prod.mk.injEq] at hrun
      rw [← hrun.1]
      exact hkey
    | some tok =>
      cases hem : (s.emoteSetting.getD []).find? (fun e => e.id == emoteId) with
      | none =>
        rw [show renderEmoteLocally s sceneId tokenId emoteId os = some (s, []) from by
          simp [renderEmoteLocally, renderEmoteStart, hsc, htok, hem]] at hrun
        simp only [Option.some.injEq, Prod.mk.injEq] at hrun
        rw [← hrun.1]
        exact hkey
      | some emote =>
        have hstart : renderEmoteStart s sceneId tokenId emoteId =
            (s, some (.loading (emoteKey tokenId emoteId) emote tok), []) := by
          simp [renderEmoteStart, hsc, htok, hem, hkey]
        simp only [renderEmoteLocally, hstart] at hrun
        cases hrec : runPhases s (.loading (emoteKey tokenId emoteId) emote tok) os with
        | none => rw [hrec] at hrun; simp at hrun
        | some r =>
          rcases r with ⟨s2, e2⟩
          rw [hrec] at hrun
          simp only [Option.some.injEq, Prod.mk.injEq] at hrun
          rw [← hrun.1]
          simpa [phaseKey] using
            runPhases_no_leak os (.loading (emoteKey tokenId emoteId) emote tok) s s2 e2
              (Or.inr (by simpa [phaseKey] using hkey)) hrec

/-- Witness for claim C3: the texture-load-failure path on the concrete
scenario; the playback resolves and the key is absent. -/
theorem renderEmote_no_leak_witness :
    List.lookup (emoteKey "T" "heart") egState.activeEmotes = none :=
  renderEmote_no_leak egState "S" "T" "heart" [.nullTexture] egState
    [.consoleWarn "tokenflipper | Failed to load emote texture: heart.svg"]
    (by decide) (by rfl)

/-- A fully successful uninterleaved playback run, computed symbolically:
the raw state and the exact event sequence. -/
theorem renderEmote_ok_run (s : EmoteState) (sceneId tokenId emoteId : String)
    (tok : EToken) (emote : EmoteDef)
    (hscene : s.currentScene = some sceneId)
    (htok : s.tokens.find? (fun t => t.id == tokenId) = some tok)
    (hemote : (s.emoteSetting.getD []).find? (fun e => e.id == emoteId) = some emote)
    (hkey : List.lookup (emoteKey tokenId emoteId) s.activeEmotes = none) :
    renderEmoteLocally s sceneId tokenId emoteId [.ok, .ok, .ok, .ok] =
      some ({ s with
              children := (updateAlpha s.nextSid 0 (updateAlpha s.nextSid 1
                (s.children ++ [mkSprite s.nextSid emote tok]))).filter
                  (fun q => q.sid ≠ s.nextSid),
              activeEmotes := mapDelete (emoteKey tokenId emoteId)
                (mapSet (emoteKey tokenId emoteId) s.nextSid s.activeEmotes),
              nextSid := s.nextSid + 1 },
        [.addChild (mkSprite s.nextSid emote tok),
         .animateAlpha s.nextSid 1 (jsOr emote.fadeIn 200),
         .holdWait (jsOr emote.duration 1500),
         .animateAlpha s.nextSid 0 (jsOr emote.fadeOut 200),
         .removeChild s.nextSid,
         .destroySprite s.nextSid]) := by
  have hstart : renderEmoteStart s sceneId tokenId emoteId =
      (s, some (.loading (emoteKey tokenId emoteId) emote tok), []) := by
    simp [renderEmoteStart, hscene, htok, hemote, hkey]
  simp [renderEmoteLocally, hstart, runPhases, renderEmoteResume, mkSprite]

/-- Claim C4: for an emote configured with fadeIn 200, duration 1500,
fadeOut 200 played on a token of the currently viewed scene, the stages
occur fully awaited in this exact order: the sprite (created at opacity 0)
is added to the scene, opacity animates to 1 over 200ms, the call holds
for 1500ms, opacity animates to 0 over 200ms, and only then is the node
removed and destroyed; the final state has the canvas children and the
ActivePlayback map restored. -/
theorem renderEmote_sequence (s : EmoteState) (sceneId tokenId emoteId : String)
    (tok : EToken) (emote : EmoteDef)
    (hscene : s.currentScene = some sceneId)
    (htok : s.tokens.find? (fun t => t.id == tokenId) = some tok)
    (hemote : (s.emoteSetting.getD []).find? (fun e => e.id == emoteId) = some emote)
    (hkey : List.lookup (emoteKey tokenId emoteId) s.activeEmotes = none)
    (hfresh : ∀ q ∈ s.children, q.sid ≠ s.nextSid)
    (hfadeIn : emote.fadeIn = some 200) (hdur : emote.duration = some 1500)
    (hfadeOut : emote.fadeOut = some 200) :
    renderEmoteLocally s sceneId tokenId emoteId [.ok, .ok, .ok, .ok] =
      some ({ s with nextSid := s.nextSid + 1 },
        [.addChild (mkSprite s.nextSid emote tok),
         .animateAlpha s.nextSid 1 200,
         .holdWait 1500,
         .animateAlpha s.nextSid 0 200,
         .removeChild s.nextSid,
         .destroySprite s.nextSid])
      ∧ (mkSprite s.nextSid emote tok).alpha = 0 := by
  have hrun := renderEmote_ok_run s sceneId tokenId emoteId tok emote hscene htok hemote hkey
  have hch : (updateAlpha s.nextSid 0 (updateAlpha s.nextSid 1
      (s.children ++ [mkSprite s.nextSid emote tok]))).filter
        (fun q => q.sid ≠ s.nextSid) = s.children :=
    children_roundtrip s.nextSid s.children (mkSprite s.nextSid emote tok) rfl hfresh
  have hae : mapDelete (emoteKey tokenId emoteId)
      (mapSet (emoteKey tokenId emoteId) s.nextSid s.activeEmotes) = s.activeEmotes := by
    rw [mapDelete_mapSet, mapDelete_of_lookup_none _ _ hkey]
  rw [hch, hae] at hrun
  refine ⟨?_, rfl⟩
  rw [hrun, hfadeIn, hdur, hfadeOut]
  norm_num [jsOr]

/-- Witness for claim C4: the "heart" emote (fadeIn 200, duration 1500,
fadeOut 200) on token "T" in the viewed scene "S". -/
theorem renderEmote_sequence_witness :
    renderEmoteLocally egState "S" "T" "heart" [.ok, .ok, .ok, .ok] =
      some ({ egState with nextSid := 1 },
        [.addChild (mkSprite 0 egEmote egToken),
         .animateAlpha 0 1 200, .holdWait 1500, .animateAlpha 0 0 200,
         .removeChild 0, .destroySprite 0])
      ∧ (mkSprite 0 egEmote egToken).alpha = 0 :=
  renderEmote_sequence egState "S" "T" "heart" egToken egEmote rfl rfl rfl rfl
    (by simp [egState]) rfl rfl rfl

/-- Claim C9: every playback uses `||`-defaulted effective values (lines
90, 97-98, 106, 109, 112) — the fade durations, hold, scale and offsets of
the run are exactly `jsOr field default` — and, field by field, any single
timing or scale field configured as 0 (or missing) is thereby replaced by
its built-in default (fadeIn/fadeOut 200, duration 1500, scale 1,
offsets 0), independently of how the other fields are configured: a
deliberately configured zero-length fade, zero hold, or zero scale is not
honored and plays with the default instead. -/
theorem renderEmote_zero_defaults (s : EmoteState) (sceneId tokenId emoteId : String)
    (tok : EToken) (emote : EmoteDef)
    (hscene : s.currentScene = some sceneId)
    (htok : s.tokens.find? (fun t => t.id == tokenId) = some tok)
    (hemote : (s.emoteSetting.getD []).find? (fun e => e.id == emoteId) = some emote)
    (hkey : List.lookup (emoteKey tokenId emoteId) s.activeEmotes = none) :
    (∃ s', renderEmoteLocally s sceneId tokenId emoteId [.ok, .ok, .ok, .ok] =
      some (s',
        [.addChild { sid := s.nextSid, alpha := 0, spriteScale := jsOr emote.scale 1,
                     posX := tok.x + tok.w / 2 + jsOr emote.offsetX 0,
                     posY := tok.y + jsOr emote.offsetY 0 },
         .animateAlpha s.nextSid 1 (jsOr emote.fadeIn 200),
         .holdWait (jsOr emote.duration 1500),
         .animateAlpha s.nextSid 0 (jsOr emote.fadeOut 200),
         .removeChild s.nextSid,
         .destroySprite s.nextSid]))
      ∧ (emote.fadeIn = some 0 ∨ emote.fadeIn = none → jsOr emote.fadeIn 200 = 200)
      ∧ (emote.fadeOut = some 0 ∨ emote.fadeOut = none → jsOr emote.fadeOut 200 = 200)
      ∧ (emote.duration = some 0 ∨ emote.duration = none → jsOr emote.duration 1500 = 1500)
      ∧ (emote.scale = some 0 ∨ emote.scale = none → jsOr emote.scale 1 = 1)
      ∧ (emote.offsetX = some 0 ∨ emote.offsetX = none → jsOr emote.offsetX 0 = 0)
      ∧ (emote.offsetY = some 0 ∨ emote.offsetY = none → jsOr emote.offsetY 0 = 0) := by
  have hrun := renderEmote_ok_run s sceneId tokenId emoteId tok emote hscene htok hemote hkey
  refine ⟨⟨_, hrun⟩, ?_, ?_, ?_, ?_, ?_, ?_⟩ <;>
    (rintro (h | h) <;> simp [jsOr, h])

/-- An emote whose fade-in (and offsetX) are deliberately 0 while every
other field is configured with an ordinary nonzero value. -/
def egZeroFadeEmote : EmoteDef :=
  { id := "zf", name := "ZeroFade", image := "zf.svg",
    offsetX := some 0, offsetY := some (-20), scale := some (3 / 4),
    duration := some 2000, fadeIn := some 0, fadeOut := some 250 }

/-- Witness for claim C9: an emote with only fadeIn configured as 0 plays
with the default 200ms fade-in while its other configured values (hold
2000, fade-out 250, scale 3/4, offsetY -20) are honored. -/
theorem renderEmote_zero_defaults_witness :
    ∃ s', renderEmoteLocally { egState with emoteSetting := some [egZeroFadeEmote] }
        "S" "T" "zf" [.ok, .ok, .ok, .ok] =
      some (s',
        [.addChild { sid := 0, alpha := 0, spriteScale := 3 / 4, posX := 1, posY := -20 },
         .animateAlpha 0 1 200, .holdWait 2000, .animateAlpha 0 0 250,
         .removeChild 0, .destroySprite 0]) := by
  obtain ⟨⟨s', h⟩, hfi, hfo, hdur, hsc, hox, hoy⟩ :=
    renderEmote_zero_defaults { egState with emoteSetting := some [egZeroFadeEmote] }
      "S" "T" "zf" egToken egZeroFadeEmote rfl rfl rfl rfl
  refine ⟨s', ?_⟩
  rw [h]
  norm_num [jsOr, egZeroFadeEmote, egToken, egState]

/-- Owned example tokens for the flip/bounce handlers. -/
def egTokenA : FToken :=
  { id := "A", name := "Alice", isOwner := true, animationActive := false,
    scaleX := 1, scaleY := 1, y := 100 }

/-- A second owned token, distinct from `egTokenA`. -/
def egTokenB : FToken :=
  { id := "B", name := "Bob", isOwner := true, animationActive := false,
    scaleX := 2, scaleY := 1, y := 50 }

/-- A token the caller does not own. -/
def egNonOwned : FToken :=
  { id := "N", name := "Nia", isOwner := false, animationActive := false,
    scaleX := 1, scaleY := 1, y := 0 }

/-- Claim C6: for an owned, not-currently-animating token, one horizontal
flip multiplies `texture.scaleX` by -1 and a second horizontal flip
restores the token exactly (original sign and magnitude); likewise for
vertical flips and `texture.scaleY`. -/
theorem flip_involutive (t : FToken) (d : ℚ)
    (hown : t.isOwner = true) (hanim : t.animationActive = false) :
    (flipSelectedTokens "horizontal" d
        ((flipSelectedTokens "horizontal" d [t]).1)).1 = [t]
      ∧ (flipSelectedTokens "horizontal" d [t]).1 = [{ t with scaleX := t.scaleX * -1 }]
      ∧ (flipSelectedTokens "vertical" d
          ((flipSelectedTokens "vertical" d [t]).1)).1 = [t]
      ∧ (flipSelectedTokens "vertical" d [t]).1 = [{ t with scaleY := t.scaleY * -1 }] := by
  obtain ⟨tid, tname, town, tanim, tsx, tsy, ty⟩ := t
  simp only at hown hanim
  subst hown
  subst hanim
  simp [flipSelectedTokens, flipOne, flipProperty, getScale, setScale, mul_neg_one, neg_neg]

/-- Witness for claim C6 on the concrete token `egTokenB`. -/
theorem flip_involutive_witness :
    (flipSelectedTokens "horizontal" 200
        ((flipSelectedTokens "horizontal" 200 [egTokenB]).1)).1 = [egTokenB]
      ∧ (flipSelectedTokens "horizontal" 200 [egTokenB]).1 =
          [{ egTokenB with scaleX := egTokenB.scaleX * -1 }]
      ∧ (flipSelectedTokens "vertical" 200
          ((flipSelectedTokens "vertical" 200 [egTokenB]).1)).1 = [egTokenB]
      ∧ (flipSelectedTokens "vertical" 200 [egTokenB]).1 =
          [{ egTokenB with scaleY := egTokenB.scaleY * -1 }] :=
  flip_involutive egTokenB 200 rfl rfl

/-- The bounce loop leaves the token exactly as it started (its `y` is the
captured original) and emits one up/down cycle per iteration. -/
theorem bounceLoop_spec (height duration : ℚ) :
    ∀ (n : Nat) (t : FToken) (originalY : ℚ), t.y = originalY →
      bounceLoop t originalY height duration n =
        (t, (List.replicate n (bounceCycle t.id originalY height duration)).flatten) := by
  intro n
  induction n with
  | zero => intro t oy ht; simp [bounceLoop]
  | succ n ih =>
    intro t oy ht
    obtain ⟨tid, tname, town, tanim, tsx, tsy, ty⟩ := t
    simp only at ht
    subst ht
    simp only [bounceLoop]
    rw [ih ⟨tid, tname, town, tanim, tsx, tsy, ty⟩ ty rfl]
    simp [List.replicate_succ]

/-- Claim C7: for an owned, not-currently-animating token with initial
vertical position y0, a bounce with (height, duration, count) performs
exactly count sequential up/down cycles — each one an awaited move to
y0 - height with easing "easeOutQuad" over duration/2 followed by an
awaited move back to y0 with easing "easeInQuad" over duration/2 — leaving
y equal to y0; and over any non-empty selection, each token's result is a
function of that token alone (no cross-token coupling). -/
theorem bounce_correct (height duration : ℚ) (count : Nat) (t : FToken)
    (ts : List FToken)
    (hown : t.isOwner = true) (hanim : t.animationActive = false) (hne : ts ≠ []) :
    bounceOne height duration count t =
      (t, (List.replicate count (bounceCycle t.id t.y height duration)).flatten)
      ∧ (bounceSelectedTokens height duration count ts).1 =
          ts.map (fun u => (bounceOne height duration count u).1) := by
  constructor
  · simp only [bounceOne, hown, hanim, Bool.not_true, if_false, doBounceAnimation]
    exact bounceLoop_spec height duration count t t.y rfl
  · simp [bounceSelectedTokens, hne]

/-- Witness for claim C7: two owned tokens A (y = 100) and B selected,
bounce with height 20, duration 150, count 3. -/
theorem bounce_correct_witness :
    bounceOne 20 150 3 egTokenA =
      (egTokenA, (List.replicate 3 (bounceCycle "A" 100 20 150)).flatten)
      ∧ (bounceSelectedTokens 20 150 3 [egTokenA, egTokenB]).1 =
          [egTokenA, egTokenB].map (fun u => (bounceOne 20 150 3 u).1) :=
  bounce_correct 20 150 3 egTokenA [egTokenA, egTokenB] rfl rfl (by decide)

/-- Claim C8: in a multi-token flip, bounce or emote call over any
non-empty selection, each token is processed independently (the result is
a pointwise map over the selection, so a permission failure on one target
affects only that target and is not retried); a non-owned token is left
unchanged and produces exactly one permission warning and no update, while
an owned token is still processed (flip: its scale factor is negated;
emote: the local render and the broadcast are issued; bounce: the bounce
animation runs). -/
theorem mixed_ownership_skip (direction : String) (d : ℚ) (ts : List FToken)
    (sceneId emoteId : String) (es : Option (List EmoteDef)) (emote : EmoteDef)
    (bheight bduration : ℚ) (bcount : Nat)
    (t u : FToken) (hne : ts ≠ [])
    (hfound : (es.getD []).find? (fun e => e.id == emoteId) = some emote)
    (hu : u.isOwner = false) (ht : t.isOwner = true) (hta : t.animationActive = false) :
    (flipSelectedTokens direction d ts).1 =
        ts.map (fun v => (flipOne (flipProperty direction) d v).1)
      ∧ (flipSelectedTokens direction d ts).2 =
          ts.flatMap (fun v => (flipOne (flipProperty direction) d v).2)
      ∧ flipOne (flipProperty direction) d u =
          (u, [.warnNotify ("You don\x27t have permission to flip " ++ u.name ++ ".")])
      ∧ (flipOne (flipProperty direction) d t).1 =
          setScale (flipProperty direction) (getScale (flipProperty direction) t * -1) t
      ∧ playEmote sceneId es ts emoteId = ts.flatMap (playEmoteOne sceneId emoteId)
      ∧ playEmoteOne sceneId emoteId u =
          [.warnNotify ("You don\x27t have permission to emote with " ++ u.name ++ ".")]
      ∧ playEmoteOne sceneId emoteId t =
          [.renderLocal sceneId t.id emoteId, .socketEmit sceneId t.id emoteId]
      ∧ (bounceSelectedTokens bheight bduration bcount ts).1 =
          ts.map (fun v => (bounceOne bheight bduration bcount v).1)
      ∧ (bounceSelectedTokens bheight bduration bcount ts).2 =
          ts.flatMap (fun v => (bounceOne bheight bduration bcount v).2)
      ∧ bounceOne bheight bduration bcount u =
          (u, [.warnNotify ("You don\x27t have permission to bounce " ++ u.name ++ ".")])
      ∧ bounceOne bheight bduration bcount t =
          doBounceAnimation t bheight bduration bcount := by
  refine ⟨?_, ?_, ?_, ?_, ?_, ?_, ?_, ?_, ?_, ?_, ?_⟩
  · simp [flipSelectedTokens, hne]
  · simp [flipSelectedTokens, hne]
  · simp [flipOne, hu]
  · simp [flipOne, ht, hta]
  · simp [playEmote, hne, hfound]
  · simp [playEmoteOne, hu]
  · simp [playEmoteOne, ht]
  · simp [bounceSelectedTokens, hne]
  · simp [bounceSelectedTokens, hne]
  · simp [bounceOne, hu]
  · simp [bounceOne, ht, hta]

/-- Witness for claim C8: the selection [Alice (owned), Nia (not owned)]
with the "heart" emote registry and bounce parameters (20, 150, 3). -/
theorem mixed_ownership_skip_witness :
    (flipSelectedTokens "horizontal" 200 [egTokenA, egNonOwned]).1 =
        [egTokenA, egNonOwned].map (fun v => (flipOne (flipProperty "horizontal") 200 v).1)
      ∧ (flipSelectedTokens "horizontal" 200 [egTokenA, egNonOwned]).2 =
          [egTokenA, egNonOwned].flatMap
            (fun v => (flipOne (flipProperty "horizontal") 200 v).2)
      ∧ flipOne (flipProperty "horizontal") 200 egNonOwned =
          (egNonOwned,
            [.warnNotify ("You don\x27t have permission to flip " ++ egNonOwned.name ++ ".")])
      ∧ (flipOne (flipProperty "horizontal") 200 egTokenA).1 =
          setScale (flipProperty "horizontal")
            (getScale (flipProperty "horizontal") egTokenA * -1) egTokenA
      ∧ playEmote "S" (some [egEmote]) [egTokenA, egNonOwned] "heart" =
          [egTokenA, egNonOwned].flatMap (playEmoteOne "S" "heart")
      ∧ playEmoteOne "S" "heart" egNonOwned =
          [.warnNotify ("You don\x27t have permission to emote with " ++ egNonOwned.name ++ ".")]
      ∧ playEmoteOne "S" "heart" egTokenA =
          [.renderLocal "S" egTokenA.id "heart", .socketEmit "S" egTokenA.id "heart"]
      ∧ (bounceSelectedTokens 20 150 3 [egTokenA, egNonOwned]).1 =
          [egTokenA, egNonOwned].map (fun v => (bounceOne 20 150 3 v).1)
      ∧ (bounceSelectedTokens 20 150 3 [egTokenA, egNonOwned]).2 =
          [egTokenA, egNonOwned].flatMap (fun v => (bounceOne 20 150 3 v).2)
      ∧ bounceOne 20 150 3 egNonOwned =
          (egNonOwned,
            [.warnNotify ("You don\x27t have permission to bounce " ++ egNonOwned.name ++ ".")])
      ∧ bounceOne 20 150 3 egTokenA = doBounceAnimation egTokenA 20 150 3 :=
  mixed_ownership_skip "horizontal" 200 [egTokenA, egNonOwned] "S" "heart"
    (some [egEmote]) egEmote 20 150 3 egTokenA egNonOwned (by decide) rfl rfl rfl rfl
